import Mathlib

/-!
Verification of the BBBC dataset loaders
(`deepchem/molnet/load_function/bbbc_datasets.py`).

The loaders download zipped image archives and tab-delimited count files,
aggregate multi-annotator count columns, validate the BBBC004
`overlap_probability` parameter, and build image datasets whose labels are
either scalar counts or foreground-mask references.  External collaborators
(`download_url`, `pd.read_csv`, `ImageLoader`, `_MolnetLoader.load_dataset`)
are modelled as explicit parameters or from the specification where their
code is not part of this repository.
-/

namespace BBBC

/-- Module constant `BBBC1_IMAGE_URL` (bbbc_datasets.py line 14). -/
def BBBC1_IMAGE_URL : String :=
  "https://data.broadinstitute.org/bbbc/BBBC001/BBBC001_v1_images_tif.zip"

/-- Module constant `BBBC1_LABEL_URL` (line 15). -/
def BBBC1_LABEL_URL : String :=
  "https://data.broadinstitute.org/bbbc/BBBC001/BBBC001_v1_counts.txt"

/-- Module constant `BBBC2_IMAGE_URL` (line 18). -/
def BBBC2_IMAGE_URL : String :=
  "https://data.broadinstitute.org/bbbc/BBBC002/BBBC002_v1_images.zip"

/-- Module constant `BBBC2_LABEL_URL` (line 19). -/
def BBBC2_LABEL_URL : String :=
  "https://data.broadinstitute.org/bbbc/BBBC002/BBBC002_v1_counts.txt"

/-- Module constant `BBBC4_IMAGE_URL` (line 22): the overlap-0.0 image archive. -/
def BBBC4_IMAGE_URL : String :=
  "https://data.broadinstitute.org/bbbc/BBBC004/BBBC004_v1_000_images.zip"

/-- Module constant `BBBC4_FOREGROUND_URL` (line 23): the overlap-0.0 foreground archive. -/
def BBBC4_FOREGROUND_URL : String :=
  "https://data.broadinstitute.org/bbbc/BBBC004/BBBC004_v1_000_foreground.zip"

/-- An observable I/O effect of a loader: one invocation of
`dc.utils.data_utils.download_url(url, dest_dir)`. -/
inductive IOEvent where
  | download (url : String)
  deriving DecidableEq

/-- A dataset label: either a scalar cell count or a reference to a
foreground-mask image, the two label shapes produced by the loaders. -/
inductive LabelV where
  | count (n : Int)
  | mask (file : String)
  deriving DecidableEq

/-- Whether a label is a scalar count. -/
def LabelV.isCount : LabelV → Bool
  | LabelV.count _ => true
  | LabelV.mask _ => false

/-- Whether a label is a foreground-mask reference. -/
def LabelV.isMask : LabelV → Bool
  | LabelV.count _ => false
  | LabelV.mask _ => true

/-- One sample of a dataset: an image together with its label. -/
structure Sample where
  x : String
  y : LabelV
  deriving DecidableEq

/-- Modelled from the spec: `dc.data.ImageLoader.create_dataset` with a label
array (deepchem.data, not under src/).  Per the spec, the Image Dataset Builder
wraps raw image files plus labels into a dataset, pairing entries in order. -/
def imageLoaderCounts (images : List String) (labels : List Int) : List Sample :=
  List.zipWith (fun im l => Sample.mk im (LabelV.count l)) images labels

/-- Modelled from the spec: `dc.data.ImageLoader.create_dataset` with a second
archive of foreground masks (deepchem.data, not under src/).  Per the spec,
segmentation mode pairs each image with a foreground-mask image reference. -/
def imageLoaderMasks (images : List String) (fgs : List String) : List Sample :=
  List.zipWith (fun im f => Sample.mk im (LabelV.mask f)) images fgs

/-- Embedding of `np.mean([col1, col2], axis=0, dtype=int)` applied to one row
(lines 39-42 and 102-107): the two entries are summed in the integer dtype and
the division result is cast back to that dtype, truncating toward zero. -/
def npMeanInt2 (a b : Int) : Int := (a + b).tdiv 2

/-- The per-row aggregation of a two-annotator-column label table, in row order
(the `labels` arrays of `_BBBC001Loader.create_dataset` and
`_BBBC002Loader.create_dataset`). -/
def aggregateLabels (rows : List (Int × Int)) : List Int :=
  rows.map (fun r => npMeanInt2 r.1 r.2)

/-- Embedding of the `overlap_dict` lookup of `_BBBC004_Loader.__init__` and
`_BBBC004_Segmentation_Loader.__init__` (lines 157-164 and 188-195):
`overlap_dict = ` 0.0 to "00", 0.15 to "15", 0.3 to "30", 0.45 to "45",
0.6 to "60"; membership of a float key is tested by equality. -/
def overlapCode (p : Rat) : Option String :=
  if p = 0.0 then some "00"
  else if p = 0.15 then some "15"
  else if p = 0.3 then some "30"
  else if p = 0.45 then some "45"
  else if p = 0.6 then some "60"
  else none

/-- The enumeration of the valid overlap probabilities as it appears inside the
validation error message. -/
def overlapKeysEnum : String := "0.0, 0.15, 0.3, 0.45, 0.6"

/-- The rendering of `overlap_dict.keys()` interpolated into the error message. -/
def overlapKeysText : String := "dict_keys([" ++ overlapKeysEnum ++ "])"

/-- Rendering of the offending value interpolated into the error message
(Python float formatting of `overlap_probability`). -/
def pyFloatRepr (q : Rat) : String :=
  if q.den = 1 then toString q.num ++ ".0"
  else toString q.num ++ "/" ++ toString q.den

/-- The f-string `"Overlap_probability must be one of ..., got ..."` of
lines 160-162 and 191-193. -/
def overlapErrorMsg (p : Rat) : String :=
  "Overlap_probability must be one of " ++ overlapKeysText ++ ", got " ++ pyFloatRepr p

/-- The state a `_BBBC004_Loader` / `_BBBC004_Segmentation_Loader` object holds
after construction: the two-digit code stored in `self.overlap_probability`. -/
structure BBBC004Loader where
  overlap_probability : String
  deriving DecidableEq

/-- Embedding of `_BBBC004_Loader.__init__` (lines 188-197): validate
`overlap_probability` against `overlap_dict`, raising `ValueError` with the
valid set and the offending value on failure, and store the mapped code on
success.  The final `super().__init__()` call is `_MolnetLoader.__init__`
(molnet_loader.py, not under src/); modelled from the spec, it only records
loader configuration and performs no I/O and no further validation. -/
def bbbc004_init (p : Rat) : Except String BBBC004Loader :=
  match overlapCode p with
  | some c => Except.ok (BBBC004Loader.mk c)
  | none => Except.error (overlapErrorMsg p)

/-- Embedding of `_BBBC004_Segmentation_Loader.__init__` (lines 157-166), whose
body is identical to `_BBBC004_Loader.__init__`. -/
def bbbc004_seg_init (p : Rat) : Except String BBBC004Loader :=
  match overlapCode p with
  | some c => Except.ok (BBBC004Loader.mk c)
  | none => Except.error (overlapErrorMsg p)

/-- The characters of a URL after its last slash, accumulator form. -/
def basenameAux : List Char → List Char → List Char
  | [], acc => acc.reverse
  | c :: rest, acc =>
    if c = '/' then basenameAux rest [] else basenameAux rest (c :: acc)

/-- The file name under which `download_url(url, dest_dir)` saves its result:
the final component of the URL. -/
def urlFileName (url : String) : String := String.mk (basenameAux url.data [])

/-- Look a file name up in the contents of `data_dir`, a list of
(file name, file content) pairs; `os.path.exists` is `lookupFile ≠ none`. -/
def lookupFile : List (String × String) → String → Option String
  | [], _ => none
  | kv :: rest, name => if kv.1 = name then some kv.2 else lookupFile rest name

/-- `dataset_file` of `_BBBC001Loader.create_dataset` (line 30). -/
def bbbc001_image_file : String := "BBBC001_v1_images_tif.zip"

/-- `labels_file` of `_BBBC001Loader.create_dataset` (line 31). -/
def bbbc001_labels_file : String := "BBBC001_v1_counts.txt"

/-- `dataset_file` of `_BBBC002Loader.create_dataset` (line 92). -/
def bbbc002_image_file : String := "BBBC002_v1_images.zip"

/-- `labels_file` of `_BBBC002Loader.create_dataset` (line 93). -/
def bbbc002_labels_file : String := "BBBC002_v1_counts.txt"

/-- `dataset_file` of the BBBC004 loaders (lines 169-170 and 200-201): the
f-string embeds the stored overlap code. -/
def bbbc004_image_file (c : String) : String := "BBBC004_v1_0" ++ c ++ "_images.zip"

/-- `foreground_file` of `_BBBC004_Segmentation_Loader.create_dataset`
(lines 171-173). -/
def bbbc004_foreground_file (c : String) : String :=
  "BBBC004_v1_0" ++ c ++ "_foreground.zip"

/-- The external collaborators of `create_dataset`, as functions of file and
URL contents.  `net` is the remote server behind `download_url` (content of a
URL, or an I/O failure); `parseCounts` is `pd.read_csv` on a two-annotator
count table (the two count columns of each row, or a parse failure);
`unzipImages` lists the images contained in a zip archive content. -/
structure Env where
  net : String → Except String String
  parseCounts : String → Except String (List (Int × Int))
  unzipImages : String → List String

/-- One `if not os.path.exists(name): download_url(url, data_dir)` step
(lines 32-37, 94-99, 174-179, 202-204).  A successful download stores the
fetched content under the URL's own file name; the download is attempted at
most once and its failure propagates. -/
def fetchIfMissing (E : Env) (fs : List (String × String)) (name url : String) :
    List IOEvent × Except String (List (String × String)) :=
  match lookupFile fs name with
  | some _ => ([], Except.ok fs)
  | none =>
    match E.net url with
    | Except.ok content =>
        ([IOEvent.download url], Except.ok ((urlFileName url, content) :: fs))
    | Except.error e => ([IOEvent.download url], Except.error e)

/-- The configuration `_MolnetLoader.__init__` stores (featurizer and splitter
identities; the rest is elided).  Modelled from the spec: the Loader Config
consists of featurizer instance, splitter selection, transformer generators
and directory paths. -/
structure MolnetConfig where
  featurizer : Nat
  splitter : Nat
  deriving DecidableEq

/-- Embedding of `_BBBC001Loader.create_dataset` (lines 29-46): download each
missing file, read the label table, aggregate the `manual count` columns with
`np.mean(..., dtype=int)`, and build the image dataset.  The body never reads
the loader's featurizer.  Any failing download or parse aborts the build with
the underlying error and no dataset. -/
def bbbc001_create (cfg : MolnetConfig) (E : Env) (fs : List (String × String)) :
    List IOEvent × Except String (List (String × String) × List Sample) :=
  match fetchIfMissing E fs bbbc001_image_file BBBC1_IMAGE_URL with
  | (ev1, Except.error e) => (ev1, Except.error e)
  | (ev1, Except.ok fs1) =>
    match fetchIfMissing E fs1 bbbc001_labels_file BBBC1_LABEL_URL with
    | (ev2, Except.error e) => (ev1 ++ ev2, Except.error e)
    | (ev2, Except.ok fs2) =>
      match lookupFile fs2 bbbc001_labels_file with
      | none => (ev1 ++ ev2, Except.error "FileNotFoundError")
      | some lc =>
        match E.parseCounts lc with
        | Except.error e => (ev1 ++ ev2, Except.error e)
        | Except.ok rows =>
          match lookupFile fs2 bbbc001_image_file with
          | none => (ev1 ++ ev2, Except.error "FileNotFoundError")
          | some ic =>
              (ev1 ++ ev2,
               Except.ok (fs2,
                 imageLoaderCounts (E.unzipImages ic) (aggregateLabels rows)))

/-- Embedding of `_BBBC002Loader.create_dataset` (lines 91-111): identical
control flow with the BBBC002 names, URLs and `human counter` columns. -/
def bbbc002_create (cfg : MolnetConfig) (E : Env) (fs : List (String × String)) :
    List IOEvent × Except String (List (String × String) × List Sample) :=
  match fetchIfMissing E fs bbbc002_image_file BBBC2_IMAGE_URL with
  | (ev1, Except.error e) => (ev1, Except.error e)
  | (ev1, Except.ok fs1) =>
    match fetchIfMissing E fs1 bbbc002_labels_file BBBC2_LABEL_URL with
    | (ev2, Except.error e) => (ev1 ++ ev2, Except.error e)
    | (ev2, Except.ok fs2) =>
      match lookupFile fs2 bbbc002_labels_file with
      | none => (ev1 ++ ev2, Except.error "FileNotFoundError")
      | some lc =>
        match E.parseCounts lc with
        | Except.error e => (ev1 ++ ev2, Except.error e)
        | Except.ok rows =>
          match lookupFile fs2 bbbc002_image_file with
          | none => (ev1 ++ ev2, Except.error "FileNotFoundError")
          | some ic =>
              (ev1 ++ ev2,
               Except.ok (fs2,
                 imageLoaderCounts (E.unzipImages ic) (aggregateLabels rows)))

/-- The label array `np.full(20, 300, dtype=int)` of
`_BBBC004_Loader.create_dataset` (line 205). -/
def bbbc004_full_labels : List Int := List.replicate 20 300

/-- Embedding of `_BBBC004_Loader.create_dataset` (lines 199-209): download
the image archive when the expected local file is absent (always from
`BBBC4_IMAGE_URL`), then pair the archive's images with the constant label
array.  `images` is the content of the image archive. -/
def bbbc004_create (L : BBBC004Loader) (images : List String)
    (fs : List (String × String)) : List IOEvent × List Sample :=
  let ev :=
    match lookupFile fs (bbbc004_image_file L.overlap_probability) with
    | some _ => []
    | none => [IOEvent.download BBBC4_IMAGE_URL]
  (ev, imageLoaderCounts images bbbc004_full_labels)

/-- Embedding of `_BBBC004_Segmentation_Loader.create_dataset` (lines 168-183):
download each missing archive (always from the fixed overlap-0.0 URLs), then
pair the images with the foreground masks. -/
def bbbc004_seg_create (L : BBBC004Loader) (images fgs : List String)
    (fs : List (String × String)) : List IOEvent × List Sample :=
  let ev1 :=
    match lookupFile fs (bbbc004_image_file L.overlap_probability) with
    | some _ => []
    | none => [IOEvent.download BBBC4_IMAGE_URL]
  let ev2 :=
    match lookupFile fs (bbbc004_foreground_file L.overlap_probability) with
    | some _ => []
    | none => [IOEvent.download BBBC4_FOREGROUND_URL]
  (ev1 ++ ev2, imageLoaderMasks images fgs)

/-- The count-mode BBBC004 pipeline: `__init__` validation followed, only on
success, by `create_dataset`.  A validation failure returns before any
download is attempted, so its event trace is empty. -/
def bbbc004_load_count (p : Rat) (images : List String)
    (fs : List (String × String)) :
    Except String (List Sample) × List IOEvent :=
  match bbbc004_init p with
  | Except.error e => (Except.error e, [])
  | Except.ok L =>
      let r := bbbc004_create L images fs
      (Except.ok r.2, r.1)

/-- The cached split under `save_dir`, when present. -/
structure SaveDir where
  cached : Option (List Sample)
  deriving DecidableEq

/-- Modelled from the spec: `_MolnetLoader.load_dataset` (molnet_loader.py,
not under src/).  Per the spec lifecycle: derived datasets are (re)built on
each load unless a cached split under `save_dir` exists and `reload=True`, in
which case the cached split is reused verbatim; with `reload=True` the first
call caches the built dataset to disk. -/
def loadDatasetCached
    (create : List (String × String) →
        List IOEvent × Except String (List (String × String) × List Sample))
    (reload : Bool) (fs : List (String × String)) (sv : SaveDir) :
    List IOEvent × Except String (List (String × String) × SaveDir × List Sample) :=
  match reload, sv.cached with
  | true, some ds => ([], Except.ok (fs, sv, ds))
  | _, _ =>
    match create fs with
    | (ev, Except.error e) => (ev, Except.error e)
    | (ev, Except.ok (fs2, ds)) =>
        (ev, Except.ok (fs2, if reload then SaveDir.mk (some ds) else sv, ds))

/-- A Python value appearing among the arguments of `load_bbbc004` and the
loader constructors. -/
inductive PyVal where
  | featurizer (id : Nat)
  | splitter (id : Nat)
  | transformers (id : Nat)
  | tasks
  | dir (s : String)
  | num (q : Rat)
  | noneV
  deriving DecidableEq

/-- The outcome of a Python call: a value, or a `TypeError` raised by the
argument-binding protocol itself. -/
inductive CallOutcome (α : Type) where
  | ok (a : α)
  | typeError
  deriving DecidableEq

/-- Rendering of an arbitrary argument value in the validation error message. -/
def pyValRepr : PyVal → String
  | PyVal.num q => pyFloatRepr q
  | PyVal.featurizer n => "<Featurizer " ++ toString n ++ ">"
  | PyVal.splitter n => "<Splitter " ++ toString n ++ ">"
  | PyVal.transformers n => "<Transformers " ++ toString n ++ ">"
  | PyVal.tasks => "<tasks>"
  | PyVal.dir s => s
  | PyVal.noneV => "None"

/-- The f-string of lines 160-162 and 191-193 for an arbitrary argument value. -/
def overlapErrorMsgPy (v : PyVal) : String :=
  "Overlap_probability must be one of " ++ overlapKeysText ++ ", got " ++ pyValRepr v

/-- `__init__` validation applied to an arbitrary Python value bound to
`overlap_probability`: a non-float value is never equal to a float key of
`overlap_dict`, so it fails the membership test. -/
def bbbc004_init_py (v : PyVal) : Except String BBBC004Loader :=
  match v with
  | PyVal.num q =>
      match overlapCode q with
      | some c => Except.ok (BBBC004Loader.mk c)
      | none => Except.error (overlapErrorMsgPy v)
  | _ => Except.error (overlapErrorMsgPy v)

/-- Embedding of the Python call protocol for
`_BBBC004_Loader.__init__(self, overlap_probability=0.0, **kwargs)` (and the
identical segmentation signature): besides `self` it accepts at most one
positional argument, which is bound to `overlap_probability` (defaulting to
0.0); supplying more positional arguments raises `TypeError` before the body
runs. -/
def bbbc004_init_call (posArgs : List PyVal) :
    CallOutcome (Except String BBBC004Loader) :=
  if posArgs.length ≤ 1 then
    CallOutcome.ok (bbbc004_init_py (posArgs.headD (PyVal.num 0)))
  else CallOutcome.typeError

/-- The positional argument list `load_bbbc004` passes to the chosen loader
class (lines 255-260): `(featurizer, splitter, transformers, BBBC4_TASKS,
data_dir, save_dir)`.  The caller's `overlap_probability` is not among them. -/
def load_bbbc004_posArgs (splitter transformers data_dir save_dir : PyVal) :
    List PyVal :=
  [PyVal.featurizer 0, splitter, transformers, PyVal.tasks, data_dir, save_dir]

/-- Embedding of `load_bbbc004` (lines 212-262): build the fixed featurizer,
choose the loader class by `load_segmentation_mask`, call its `__init__` with
the six positional arguments, and only if construction succeeds run
`load_dataset` (abstracted as the continuation `run`). -/
def load_bbbc004_model
    (run : Except String BBBC004Loader → List IOEvent × Option (List Sample))
    (overlap_probability : PyVal) (load_segmentation_mask : Bool)
    (splitter transformers data_dir save_dir : PyVal) :
    CallOutcome (Option (List Sample)) × List IOEvent :=
  let posArgs := load_bbbc004_posArgs splitter transformers data_dir save_dir
  match bbbc004_init_call posArgs with
  | CallOutcome.typeError => (CallOutcome.typeError, [])
  | CallOutcome.ok r =>
      let out := run r
      (CallOutcome.ok out.2, out.1)

/-- A concrete environment for evaluation: a remote server that always serves
content "c", a parser yielding one row (1, 2), and archives containing one
image. -/
def envW : Env :=
  Env.mk (fun _ => Except.ok "c") (fun _ => Except.ok [(1, 2)]) (fun _ => ["im"])

/-- A concrete environment for evaluation: a remote server whose downloads
fail and a parser that rejects every file. -/
def envFail : Env :=
  Env.mk (fun _ => Except.error "ConnectionError")
         (fun _ => Except.error "ParserError") (fun _ => [])

/-- The data-dir contents after the first concrete load of BBBC001 under
`envW`. -/
def fsW : List (String × String) :=
  [("BBBC001_v1_counts.txt", "c"), ("BBBC001_v1_images_tif.zip", "c")]

/-- The dataset built by the first concrete load of BBBC001 under `envW`. -/
def dsW : List Sample := [Sample.mk "im" (LabelV.count 1)]

/-- A data dir already holding both BBBC001 files. -/
def fsBothW : List (String × String) :=
  [("BBBC001_v1_images_tif.zip", "ic"), ("BBBC001_v1_counts.txt", "lc")]

/-- An invalid overlap probability fails the `overlap_dict` membership test. -/
theorem overlapCode_eq_none (p : Rat)
    (h : ¬(p = 0.0 ∨ p = 0.15 ∨ p = 0.3 ∨ p = 0.45 ∨ p = 0.6)) :
    overlapCode p = none := by
  unfold overlapCode
  split_ifs with h1 h2 h3 h4 h5 <;> tauto

/-- The validation error message contains the enumeration of the valid set. -/
theorem enum_in_errorMsg (p : Rat) :
    List.IsInfix overlapKeysEnum.data (overlapErrorMsg p).data := by
  refine ⟨"Overlap_probability must be one of ".data ++ "dict_keys([".data,
          "])".data ++ ", got ".data ++ (pyFloatRepr p).data, ?_⟩
  simp [overlapErrorMsg, overlapKeysText, String.data_append]

/-- The validation error message contains the rendering of the offending
value. -/
theorem value_in_errorMsg (p : Rat) :
    List.IsInfix (pyFloatRepr p).data (overlapErrorMsg p).data := by
  refine ⟨"Overlap_probability must be one of ".data ++ overlapKeysText.data
            ++ ", got ".data, [], ?_⟩
  simp [overlapErrorMsg, String.data_append]

/-- On nonnegative entries, the truncating integer mean coincides with the
floor of the rational mean. -/
theorem npMeanInt2_eq_floor (a b : Int) (ha : 0 ≤ a) (hb : 0 ≤ b) :
    npMeanInt2 a b = ⌊((a : ℚ) + (b : ℚ)) / 2⌋ := by
  unfold npMeanInt2
  rw [Int.tdiv_eq_ediv (by omega) (by omega)]
  have h2 := Rat.floor_intCast_div_natCast (a + b) 2
  push_cast at h2
  rw [← h2]

/-- Every sample paired with a constant replicated label array carries that
constant label. -/
theorem mem_imageLoaderCounts_replicate (images : List String) (n : Nat) (v : Int) :
    ∀ s ∈ imageLoaderCounts images (List.replicate n v), s.y = LabelV.count v := by
  induction images generalizing n with
  | nil => simp [imageLoaderCounts]
  | cons a as ih =>
    cases n with
    | zero => simp [imageLoaderCounts]
    | succ m =>
      intro s hs
      simp only [imageLoaderCounts, List.replicate, List.zipWith] at hs
      cases hs with
      | head => rfl
      | tail _ h => exact ih m s h

/-- Every label of a mask-paired dataset is a mask reference. -/
theorem imageLoaderMasks_all_mask (images fgs : List String) :
    ((imageLoaderMasks images fgs).all fun s => s.y.isMask) = true := by
  induction images generalizing fgs with
  | nil => rfl
  | cons a as ih =>
    cases fgs with
    | nil => rfl
    | cons b bs => simpa [imageLoaderMasks, LabelV.isMask] using ih bs

/-- Every label of a count-paired dataset is a scalar count. -/
theorem imageLoaderCounts_all_count (images : List String) (labels : List Int) :
    ((imageLoaderCounts images labels).all fun s => s.y.isCount) = true := by
  induction images generalizing labels with
  | nil => rfl
  | cons a as ih =>
    cases labels with
    | nil => rfl
    | cons b bs => simpa [imageLoaderCounts, LabelV.isCount] using ih bs

/-- C1: for every `overlap_probability` in the set 0.0, 0.15, 0.3, 0.45, 0.6,
construction of a BBBC004 loader (count or segmentation) succeeds; for every
float outside that set it fails with a `ValueError` whose message names the
valid set. -/
theorem bbbc004_overlap_validation (p : Rat) :
    ((p = 0.0 ∨ p = 0.15 ∨ p = 0.3 ∨ p = 0.45 ∨ p = 0.6) →
        (bbbc004_init p).isOk = true ∧ (bbbc004_seg_init p).isOk = true) ∧
    (¬(p = 0.0 ∨ p = 0.15 ∨ p = 0.3 ∨ p = 0.45 ∨ p = 0.6) →
        bbbc004_init p = Except.error (overlapErrorMsg p) ∧
        bbbc004_seg_init p = Except.error (overlapErrorMsg p) ∧
        List.IsInfix overlapKeysEnum.data (overlapErrorMsg p).data) := by
  constructor
  · rintro (rfl | rfl | rfl | rfl | rfl) <;>
      refine ⟨?_, ?_⟩ <;>
      · simp only [bbbc004_init, bbbc004_seg_init, overlapCode]
        norm_num [Except.isOk, Except.toBool]
  · intro h
    have hc := overlapCode_eq_none p h
    exact ⟨by simp [bbbc004_init, hc], by simp [bbbc004_seg_init, hc],
           enum_in_errorMsg p⟩

/-- Witness for C1 at the valid value 0.15 and the invalid value 0.2. -/
theorem bbbc004_overlap_validation_witness :
    ((bbbc004_init 0.15).isOk = true ∧ (bbbc004_seg_init 0.15).isOk = true) ∧
    (bbbc004_init 0.2 = Except.error (overlapErrorMsg 0.2) ∧
     bbbc004_seg_init 0.2 = Except.error (overlapErrorMsg 0.2) ∧
     List.IsInfix overlapKeysEnum.data (overlapErrorMsg 0.2).data) :=
  ⟨(bbbc004_overlap_validation 0.15).1 (by norm_num),
   (bbbc004_overlap_validation 0.2).2 (by norm_num)⟩

/-- C2: for every combination of arguments, `load_bbbc004` raises a
`TypeError` before any dataset is built: it passes six positional arguments
to a constructor accepting only `overlap_probability` positionally, the
positional list it builds has six entries, and the caller's
`overlap_probability` is never forwarded (the outcome is independent of it). -/
theorem load_bbbc004_always_typeError
    (run : Except String BBBC004Loader → List IOEvent × Option (List Sample))
    (op : PyVal) (mask : Bool) (sp tr dd sd : PyVal) :
    load_bbbc004_model run op mask sp tr dd sd = (CallOutcome.typeError, []) ∧
    (load_bbbc004_posArgs sp tr dd sd).length = 6 ∧
    (∀ op2 : PyVal, load_bbbc004_model run op mask sp tr dd sd =
        load_bbbc004_model run op2 mask sp tr dd sd) :=
  ⟨rfl, rfl, fun _ => rfl⟩

/-- C3: a count-mode BBBC004 load of the 20-image archive returns a dataset
with exactly 20 samples, each carrying the scalar label 300. -/
theorem bbbc004_count_twenty_300 (L : BBBC004Loader) (images : List String)
    (fs : List (String × String)) (h : images.length = 20) :
    (bbbc004_create L images fs).2.length = 20 ∧
    ∀ s ∈ (bbbc004_create L images fs).2, s.y = LabelV.count 300 := by
  constructor
  · simp [bbbc004_create, imageLoaderCounts, bbbc004_full_labels, h]
  · intro s hs
    exact mem_imageLoaderCounts_replicate images 20 300 s
      (by simpa [bbbc004_create, bbbc004_full_labels] using hs)

/-- Witness for C3 on a concrete 20-image archive. -/
theorem bbbc004_count_twenty_300_witness :
    (List.replicate 20 "img").length = 20 ∧
    ((bbbc004_create (BBBC004Loader.mk "00") (List.replicate 20 "img") []).2.length = 20 ∧
     ∀ s ∈ (bbbc004_create (BBBC004Loader.mk "00") (List.replicate 20 "img") []).2,
       s.y = LabelV.count 300) :=
  ⟨by decide,
   bbbc004_count_twenty_300 (BBBC004Loader.mk "00") (List.replicate 20 "img") [] (by decide)⟩

/-- C4: for every row of a two-annotator-column label file of nonnegative
counts, the aggregated label equals the floor of the two-column mean,
computed per row in row order. -/
theorem aggregateLabels_floor_mean (rows : List (Int × Int))
    (h : ∀ r ∈ rows, 0 ≤ r.1 ∧ 0 ≤ r.2) :
    aggregateLabels rows = rows.map (fun r => ⌊((r.1 : ℚ) + (r.2 : ℚ)) / 2⌋) := by
  unfold aggregateLabels
  refine List.map_congr_left ?_
  intro r hr
  exact npMeanInt2_eq_floor r.1 r.2 (h r hr).1 (h r hr).2

/-- Witness for C4 on the rows (5, 6) and (7, 7). -/
theorem aggregateLabels_floor_mean_witness :
    (∀ r ∈ [((5 : Int), (6 : Int)), ((7 : Int), (7 : Int))], 0 ≤ r.1 ∧ 0 ≤ r.2) ∧
    aggregateLabels [((5 : Int), (6 : Int)), ((7 : Int), (7 : Int))] =
      [((5 : Int), (6 : Int)), ((7 : Int), (7 : Int))].map
        (fun r => ⌊((r.1 : ℚ) + (r.2 : ℚ)) / 2⌋) :=
  ⟨by decide, aggregateLabels_floor_mean _ (by decide)⟩

/-- C5: an invalid `overlap_probability` makes the count-mode BBBC004
pipeline fail immediately with the validation error, before any download
is attempted (empty event trace), and the message contains both the
offending value and the enumeration of the valid set. -/
theorem bbbc004_invalid_fails_before_io (p : Rat) (images : List String)
    (fs : List (String × String))
    (h : ¬(p = 0.0 ∨ p = 0.15 ∨ p = 0.3 ∨ p = 0.45 ∨ p = 0.6)) :
    bbbc004_load_count p images fs = (Except.error (overlapErrorMsg p), []) ∧
    List.IsInfix (pyFloatRepr p).data (overlapErrorMsg p).data ∧
    List.IsInfix overlapKeysEnum.data (overlapErrorMsg p).data := by
  have hc := overlapCode_eq_none p h
  exact ⟨by simp [bbbc004_load_count, bbbc004_init, hc],
         value_in_errorMsg p, enum_in_errorMsg p⟩

/-- Witness for C5 at the invalid value 0.2. -/
theorem bbbc004_invalid_fails_before_io_witness :
    ¬((0.2 : Rat) = 0.0 ∨ (0.2 : Rat) = 0.15 ∨ (0.2 : Rat) = 0.3 ∨
      (0.2 : Rat) = 0.45 ∨ (0.2 : Rat) = 0.6) ∧
    (bbbc004_load_count 0.2 ["im"] [] = (Except.error (overlapErrorMsg 0.2), []) ∧
     List.IsInfix (pyFloatRepr 0.2).data (overlapErrorMsg 0.2).data ∧
     List.IsInfix overlapKeysEnum.data (overlapErrorMsg 0.2).data) :=
  ⟨by norm_num, bbbc004_invalid_fails_before_io 0.2 ["im"] [] (by norm_num)⟩

/-- C6: after any successful load with `reload=True`, a second load with
identical arguments performs no download at all (empty event trace) and
returns a dataset with identical contents, for every loader's
`create_dataset`. -/
theorem reload_cache_hit
    (create : List (String × String) →
        List IOEvent × Except String (List (String × String) × List Sample))
    (fs : List (String × String)) (sv : SaveDir) (ev1 : List IOEvent)
    (fs1 : List (String × String)) (sv1 : SaveDir) (ds1 : List Sample)
    (h : loadDatasetCached create true fs sv = (ev1, Except.ok (fs1, sv1, ds1))) :
    loadDatasetCached create true fs1 sv1 = ([], Except.ok (fs1, sv1, ds1)) := by
  unfold loadDatasetCached at h ⊢
  cases hsv : sv.cached with
  | some ds =>
    simp [hsv] at h
    obtain ⟨he, hfs, hsv1, hds⟩ := h
    subst hfs; subst hds
    simp [← hsv1, hsv]
  | none =>
    simp [hsv] at h
    cases hcr : create fs with
    | mk ev r =>
      rw [hcr] at h
      cases r with
      | error e => simp at h
      | ok pr =>
        obtain ⟨fs2, ds⟩ := pr
        simp at h
        obtain ⟨he, hfs, hsv1, hds⟩ := h
        subst hfs; subst hds
        simp [← hsv1]

/-- Witness for C6: a concrete first BBBC001 load downloads both files and
caches; the second load is a cache hit with no download and the same
dataset. -/
theorem reload_cache_hit_witness :
    loadDatasetCached (bbbc001_create (MolnetConfig.mk 0 0) envW) true [] (SaveDir.mk none) =
      ([IOEvent.download BBBC1_IMAGE_URL, IOEvent.download BBBC1_LABEL_URL],
       Except.ok (fsW, SaveDir.mk (some dsW), dsW)) ∧
    loadDatasetCached (bbbc001_create (MolnetConfig.mk 0 0) envW) true fsW (SaveDir.mk (some dsW)) =
      ([], Except.ok (fsW, SaveDir.mk (some dsW), dsW)) :=
  ⟨rfl,
   reload_cache_hit (bbbc001_create (MolnetConfig.mk 0 0) envW) [] (SaveDir.mk none)
     [IOEvent.download BBBC1_IMAGE_URL, IOEvent.download BBBC1_LABEL_URL]
     fsW (SaveDir.mk (some dsW)) dsW rfl⟩

/-- C7: every label of a segmentation-mode BBBC004 dataset is a
foreground-mask reference, every label of a count-mode dataset is a scalar
count, and the two shapes are mutually exclusive, so no single dataset
instance mixes them. -/
theorem bbbc004_mode_shapes (L : BBBC004Loader) (images fgs : List String)
    (fs : List (String × String)) :
    ((bbbc004_seg_create L images fgs fs).2.all fun s => s.y.isMask) = true ∧
    ((bbbc004_create L images fs).2.all fun s => s.y.isCount) = true ∧
    ∀ v : LabelV, v.isCount = !v.isMask := by
  refine ⟨?_, ?_, fun v => by cases v <;> rfl⟩
  · simpa [bbbc004_seg_create] using imageLoaderMasks_all_mask images fgs
  · simpa [bbbc004_create] using imageLoaderCounts_all_count images bbbc004_full_labels

/-- C8: a failing download propagates its error unchanged to the caller after
a single attempt, and a failing parse propagates its error, with no retry
and no partial dataset, for the BBBC001 and BBBC002 loaders. -/
theorem create_io_error_propagates (cfg : MolnetConfig) (E : Env)
    (fs : List (String × String)) :
    (∀ e, lookupFile fs bbbc001_image_file = none →
        E.net BBBC1_IMAGE_URL = Except.error e →
        bbbc001_create cfg E fs = ([IOEvent.download BBBC1_IMAGE_URL], Except.error e)) ∧
    (∀ e ic lc, lookupFile fs bbbc001_image_file = some ic →
        lookupFile fs bbbc001_labels_file = some lc →
        E.parseCounts lc = Except.error e →
        bbbc001_create cfg E fs = ([], Except.error e)) ∧
    (∀ e, lookupFile fs bbbc002_image_file = none →
        E.net BBBC2_IMAGE_URL = Except.error e →
        bbbc002_create cfg E fs = ([IOEvent.download BBBC2_IMAGE_URL], Except.error e)) := by
  refine ⟨?_, ?_, ?_⟩
  · intro e h1 h2
    simp [bbbc001_create, fetchIfMissing, h1, h2]
  · intro e ic lc h1 h2 h3
    simp [bbbc001_create, fetchIfMissing, h1, h2, h3]
  · intro e h1 h2
    simp [bbbc002_create, fetchIfMissing, h1, h2]

/-- Witness for C8: a failing connection and a failing parser on concrete
states. -/
theorem create_io_error_propagates_witness :
    (lookupFile [] bbbc001_image_file = none ∧
     envFail.net BBBC1_IMAGE_URL = Except.error "ConnectionError" ∧
     bbbc001_create (MolnetConfig.mk 0 0) envFail [] =
       ([IOEvent.download BBBC1_IMAGE_URL], Except.error "ConnectionError")) ∧
    (lookupFile fsBothW bbbc001_image_file = some "ic" ∧
     lookupFile fsBothW bbbc001_labels_file = some "lc" ∧
     envFail.parseCounts "lc" = Except.error "ParserError" ∧
     bbbc001_create (MolnetConfig.mk 0 0) envFail fsBothW = ([], Except.error "ParserError")) ∧
    (lookupFile [] bbbc002_image_file = none ∧
     envFail.net BBBC2_IMAGE_URL = Except.error "ConnectionError" ∧
     bbbc002_create (MolnetConfig.mk 0 0) envFail [] =
       ([IOEvent.download BBBC2_IMAGE_URL], Except.error "ConnectionError")) :=
  ⟨⟨rfl, rfl, (create_io_error_propagates _ envFail _).1 _ rfl rfl⟩,
   ⟨rfl, rfl, rfl, (create_io_error_propagates _ envFail fsBothW).2.1 _ "ic" "lc" rfl rfl rfl⟩,
   ⟨rfl, rfl, (create_io_error_propagates _ envFail _).2.2 _ rfl rfl⟩⟩

/-- C9: for every stored overlap code the BBBC004 loaders pass the same fixed
overlap-0.0 URLs to the fetcher; the downloaded archive is saved under the
overlap-0.0 name, which matches the expected local file only for code "00",
and differs from it for every other valid overlap probability. -/
theorem bbbc004_urls_fixed :
    (∀ (c : String) (images fgs : List String),
        (bbbc004_seg_create (BBBC004Loader.mk c) images fgs []).1 =
          [IOEvent.download BBBC4_IMAGE_URL, IOEvent.download BBBC4_FOREGROUND_URL] ∧
        (bbbc004_create (BBBC004Loader.mk c) images []).1 =
          [IOEvent.download BBBC4_IMAGE_URL]) ∧
    urlFileName BBBC4_IMAGE_URL = bbbc004_image_file "00" ∧
    urlFileName BBBC4_FOREGROUND_URL = bbbc004_foreground_file "00" ∧
    (∀ p : Rat, p ≠ 0.0 → ∀ c, overlapCode p = some c →
        urlFileName BBBC4_IMAGE_URL ≠ bbbc004_image_file c ∧
        urlFileName BBBC4_FOREGROUND_URL ≠ bbbc004_foreground_file c) := by
  refine ⟨fun c images fgs => ⟨rfl, rfl⟩, by decide, by decide, ?_⟩
  intro p hp c hc
  unfold overlapCode at hc
  split_ifs at hc with h1 h2 h3 h4 h5
  · exact absurd h1 hp
  · injection hc with hc; subst hc; exact ⟨by decide, by decide⟩
  · injection hc with hc; subst hc; exact ⟨by decide, by decide⟩
  · injection hc with hc; subst hc; exact ⟨by decide, by decide⟩
  · injection hc with hc; subst hc; exact ⟨by decide, by decide⟩

/-- Witness for C9 at overlap probability 0.15. -/
theorem bbbc004_urls_fixed_witness :
    (0.15 : Rat) ≠ 0.0 ∧ overlapCode 0.15 = some "15" ∧
    (urlFileName BBBC4_IMAGE_URL ≠ bbbc004_image_file "15" ∧
     urlFileName BBBC4_FOREGROUND_URL ≠ bbbc004_foreground_file "15") :=
  ⟨by norm_num, by simp [overlapCode]; norm_num,
   bbbc004_urls_fixed.2.2.2 0.15 (by norm_num) "15" (by simp [overlapCode]; norm_num)⟩

/-- C10: the datasets produced by the BBBC001 and BBBC002 loads are identical
for any two featurizer instances held in the loader configuration: the
featurizer is never applied to the images or labels. -/
theorem featurizer_noninterference (f1 f2 sp : Nat) (E : Env) (reload : Bool)
    (fs : List (String × String)) (sv : SaveDir) :
    loadDatasetCached (bbbc001_create (MolnetConfig.mk f1 sp) E) reload fs sv =
      loadDatasetCached (bbbc001_create (MolnetConfig.mk f2 sp) E) reload fs sv ∧
    loadDatasetCached (bbbc002_create (MolnetConfig.mk f1 sp) E) reload fs sv =
      loadDatasetCached (bbbc002_create (MolnetConfig.mk f2 sp) E) reload fs sv :=
  ⟨rfl, rfl⟩

end BBBC
